import Mathlib

/-!
# CodeLens test-execution orchestration plane: a shallow embedding

This file embeds the parts of the CodeLens repository that the verified
claims are about:

* `src/backend/websocket/test_runner_client.py` — the runner client
  (`execute_tests`, `execute_tests_streaming`, `_send_and_receive`,
  `_send_and_receive_streaming`), modelled as pure functions over an
  explicit environment: the sequence of connection-attempt outcomes and,
  for a successful connection, the sequence of events observed on the
  socket (frames arriving, receive timeouts, connection loss).
* `src/backend/tests/handlers/test_generation_service.py` — the per-kind
  generation/execution coordinator, modelled as a function from its
  environment (generator outcome, streamed results) to the trace of
  response frames it sends on the session.
* `src/backend/tests/handlers/test_execution.py` and
  `src/backend/websocket/test_execution.py` — the `run_tests` handler.
* `src/backend/api/responses.py` — error-response constructors.
* `src/backend/websocket/models.py` — the `Test` model.
* `src/test-runner/main.py` (Kubernetes backend) and
  `src/test-runner-docker/main.py` (Docker backend) — result mapping and
  resource cleanup of `_execute_single_test`.

Python exceptions are modelled explicitly: an `except Exception` clause
catches `Exception` subclasses but not `asyncio.CancelledError` (a
`BaseException` in Python ≥ 3.8), which the embedding tracks as a
distinct outcome.  Wall-clock floats are modelled as natural numbers of
seconds; nothing proved here depends on fractional time.
-/

namespace CodeLens

/-- Wire model of `TestRequest` (`test_runner_client.py` lines 20-25):
the per-test payload sent to the sandbox service. -/
structure TestRequest where
  id : String
  type : String
  name : String
  title : String
  code : String
deriving DecidableEq

/-- Wire model of `TestResult` (`test_runner_client.py` lines 33-38 and
`test-runner*/main.py`): `{test_id, success, output, error, execution_time}`. -/
structure TestResult where
  test_id : String
  success : Bool
  output : String
  error : Option String := none
  execution_time : Option Nat := none
deriving DecidableEq

/-- `CONNECTION_TIMEOUT` (`test_runner_client.py` line 14): per-attempt
connect timeout in seconds. -/
def CONNECTION_TIMEOUT : Nat := 60

/-- `EXECUTION_TIMEOUT` (`test_runner_client.py` line 15): the timeout, in
seconds, passed to `asyncio.wait_for` around every `websocket.recv()`. -/
def EXECUTION_TIMEOUT : Nat := 300

/-- `max_retries` (`test_runner_client.py` lines 147, 253). -/
def max_retries : Nat := 3

/-- One event observed on the runner socket while waiting for replies:
a decoded frame, a `recv` timeout, a JSON/pydantic decode failure, or the
connection closing under us.  An exhausted event list means no further
frame ever arrives, which the receive loop observes as a timeout. -/
inductive StreamEvent where
  | individual (message_id : String) (result : TestResult)
  | batch (message_id : String) (results : List TestResult)
  | runnerError (msg : String)
  | badJson
  | badFormat
  | recvTimeout
  | connClosed (msg : String)
deriving DecidableEq

/-- How the inner receive loop of `_send_and_receive_streaming`
(`test_runner_client.py` lines 174-218) ends:
`done` = the `while` loop exits (all results counted, a matching batch
arrived, or a receive timeout broke out) and the function returns;
`fatal` = a plain `Exception` is raised (runner error frame, JSON decode
error, pydantic validation error) — none of the enclosing `except`
clauses of the retry loop match it, so it escapes at once;
`connLost` = `ConnectionClosed` during `recv`, caught by the
connection-error clause of the retry loop. -/
inductive LoopExit where
  | done
  | fatal (msg : String)
  | connLost (msg : String)
deriving DecidableEq

/-- The receive loop of `_send_and_receive_streaming` (lines 174-213).
`mid` is the dispatched `message_id`, `total` the number of tests,
`completed` the running count of accepted result frames, and `acc` the
callback invocations `(test_id, result)` made so far, in order.
Matching `individual` frames invoke the callback and increment the count;
matching `batch` frames invoke it for every contained result and break;
frames with a different `message_id` are skipped silently; a `recv`
timeout breaks out of the loop (the function then returns normally). -/
def recvLoopStreaming (mid : String) (total : Nat)
    (events : List StreamEvent) (completed : Nat)
    (acc : List (String × TestResult)) :
    List (String × TestResult) × LoopExit :=
  if total ≤ completed then (acc, .done)
  else
    match events with
    | [] => (acc, .done)
    | .recvTimeout :: _ => (acc, .done)
    | .runnerError m :: _ => (acc, .fatal ("Test runner error: " ++ m))
    | .badJson :: _ => (acc, .fatal "Invalid response from test runner")
    | .badFormat :: _ => (acc, .fatal "Invalid response format from test runner")
    | .connClosed m :: _ => (acc, .connLost m)
    | .individual m r :: rest =>
      if m = mid then
        recvLoopStreaming mid total rest (completed + 1) (acc ++ [(r.test_id, r)])
      else
        recvLoopStreaming mid total rest completed acc
    | .batch m rs :: rest =>
      if m = mid then
        (acc ++ rs.map (fun r => (r.test_id, r)), .done)
      else
        recvLoopStreaming mid total rest completed acc

/-- Environment of one iteration of the retry loop of
`_send_and_receive_streaming` / `_send_and_receive` (lines 150-247,
256-323): the connect either times out (`asyncio.wait_for` around
`websockets.connect`), fails with a connection error, or succeeds, after
which the socket yields `events`. -/
inductive AttemptSpec where
  | connectTimeout
  | connectError (msg : String)
  | connected (events : List StreamEvent)
deriving DecidableEq

/-- Result of `_send_and_receive_streaming` as observed by its caller:
the ordered callback invocations plus either a normal return or an
escaped exception message. -/
inductive SendOutcome where
  | returned
  | raised (msg : String)
deriving DecidableEq

/-- Statistics of one run of the retry loop, for the connection-policy
claims: how many `for attempt in range(max_retries)` iterations ran and
which `asyncio.sleep(retry_delay)` delays were performed between them. -/
structure RetryStats where
  attemptsUsed : Nat
  sleeps : List Nat
deriving DecidableEq

/-- One connected attempt of `_send_and_receive_streaming`: run the
receive loop; `done` returns from the function, `fatal` raises a plain
`Exception` that no `except` clause of the retry loop matches, and
`connLost` is caught by the `(ConnectionClosed, InvalidURI, OSError)`
clause, which re-raises `Cannot connect to test runner: …` on the last
attempt and otherwise retries. -/
def streamingAttempt (mid : String) (total : Nat) (events : List StreamEvent) :
    List (String × TestResult) × LoopExit :=
  recvLoopStreaming mid total events 0 []

/-- The retry loop of `_send_and_receive_streaming` (lines 147-249).
`attemptIdx` is the `for` index, `retry_delay` the current backoff delay
(2 initially, doubled after each sleep), `acc` the callbacks delivered so
far (they are externally visible side effects and survive retries), and
`stats` counts attempts and sleeps.  Connect timeouts raise
`Test execution timeout after all retries` on the last attempt;
connection errors raise `Cannot connect to test runner: …`; an empty
remaining environment stands for the unreachable fall-through
`raise Exception("All connection attempts failed")`. -/
def sendAndReceiveStreamingGo (mid : String) (total : Nat) :
    List AttemptSpec → Nat → Nat → List (String × TestResult) → RetryStats →
    List (String × TestResult) × SendOutcome × RetryStats
  | [], _, _, acc, stats => (acc, .raised "All connection attempts failed", stats)
  | spec :: restAttempts, attemptIdx, retry_delay, acc, stats =>
    match spec with
    | .connectTimeout =>
      if attemptIdx = max_retries - 1 then
        (acc, .raised "Test execution timeout after all retries",
          { stats with attemptsUsed := stats.attemptsUsed + 1 })
      else
        sendAndReceiveStreamingGo mid total restAttempts (attemptIdx + 1)
          (retry_delay * 2) acc
          { attemptsUsed := stats.attemptsUsed + 1
            sleeps := stats.sleeps ++ [retry_delay] }
    | .connectError m =>
      if attemptIdx = max_retries - 1 then
        (acc, .raised ("Cannot connect to test runner: " ++ m),
          { stats with attemptsUsed := stats.attemptsUsed + 1 })
      else
        sendAndReceiveStreamingGo mid total restAttempts (attemptIdx + 1)
          (retry_delay * 2) acc
          { attemptsUsed := stats.attemptsUsed + 1
            sleeps := stats.sleeps ++ [retry_delay] }
    | .connected events =>
      match streamingAttempt mid total events with
      | (delivered, .done) =>
        (acc ++ delivered, .returned,
          { stats with attemptsUsed := stats.attemptsUsed + 1 })
      | (delivered, .fatal m) =>
        (acc ++ delivered, .raised m,
          { stats with attemptsUsed := stats.attemptsUsed + 1 })
      | (delivered, .connLost m) =>
        if attemptIdx = max_retries - 1 then
          (acc ++ delivered, .raised ("Cannot connect to test runner: " ++ m),
            { stats with attemptsUsed := stats.attemptsUsed + 1 })
        else
          sendAndReceiveStreamingGo mid total restAttempts (attemptIdx + 1)
            (retry_delay * 2) (acc ++ delivered)
            { attemptsUsed := stats.attemptsUsed + 1
              sleeps := stats.sleeps ++ [retry_delay] }

/-- `_send_and_receive_streaming` (lines 141-249): runs the retry loop
with `attempt = 0` and `retry_delay = 2`. -/
def send_and_receive_streaming (mid : String) (total : Nat)
    (attempts : List AttemptSpec) :
    List (String × TestResult) × SendOutcome × RetryStats :=
  sendAndReceiveStreamingGo mid total attempts 0 2 [] ⟨0, []⟩

/-- The synthesized failure result built by the `except` blocks of
`execute_tests` (lines 90-98) and `execute_tests_streaming`
(lines 132-139). -/
def commError (test_id : String) (msg : String) : TestResult :=
  { test_id := test_id, success := false, output := ""
    error := some ("Test runner communication error: " ++ msg) }

/-- `execute_tests_streaming` (lines 101-139): dispatches the tests with
a fresh `message_id` `mid` and returns the full ordered list of callback
invocations.  If `_send_and_receive_streaming` raises, the `except`
block invokes the callback once more for **every** test of the dispatch
with a synthesized `Test runner communication error: …` failure —
regardless of what was already delivered. -/
def execute_tests_streaming (tests : List TestRequest) (mid : String)
    (attempts : List AttemptSpec) : List (String × TestResult) :=
  match send_and_receive_streaming mid tests.length attempts with
  | (delivered, .returned, _) => delivered
  | (delivered, .raised msg, _) =>
    delivered ++ tests.map (fun t => (t.id, commError t.id msg))

/-- Environment of one iteration of the retry loop of the batched
`_send_and_receive` (lines 256-323): the connect outcome and, when
connected, the single event produced by the one `websocket.recv()`. -/
inductive BatchAttemptSpec where
  | connectTimeout
  | connectError (msg : String)
  | connected (event : StreamEvent)
deriving DecidableEq

/-- Result of `_send_and_receive`: either the decoded `results` list is
returned (with `warned` recording whether the message-ID-mismatch
warning at lines 288-291 was logged), or an exception escapes. -/
inductive BatchOutcome where
  | returned (results : List TestResult) (warned : Bool)
  | raised (msg : String)
deriving DecidableEq

/-- The retry loop of `_send_and_receive` (lines 253-325).  A single
reply is read per attempt; a `TestResponse` whose `message_id` differs
from the sent one only logs a warning — its `results` are **returned
anyway** (lines 286-294).  An `individual` frame fails `TestResponse`
validation (no `results` field), raising
`Invalid response format from test runner`. -/
def sendAndReceiveGo (mid : String) :
    List BatchAttemptSpec → Nat → Nat → RetryStats →
    BatchOutcome × RetryStats
  | [], _, _, stats => (.raised "All connection attempts failed", stats)
  | spec :: restAttempts, attemptIdx, retry_delay, stats =>
    match spec with
    | .connectTimeout =>
      if attemptIdx = max_retries - 1 then
        (.raised "Test execution timeout after all retries",
          { stats with attemptsUsed := stats.attemptsUsed + 1 })
      else
        sendAndReceiveGo mid restAttempts (attemptIdx + 1) (retry_delay * 2)
          { attemptsUsed := stats.attemptsUsed + 1
            sleeps := stats.sleeps ++ [retry_delay] }
    | .connectError m =>
      if attemptIdx = max_retries - 1 then
        (.raised ("Cannot connect to test runner: " ++ m),
          { stats with attemptsUsed := stats.attemptsUsed + 1 })
      else
        sendAndReceiveGo mid restAttempts (attemptIdx + 1) (retry_delay * 2)
          { attemptsUsed := stats.attemptsUsed + 1
            sleeps := stats.sleeps ++ [retry_delay] }
    | .connected event =>
      match event with
      | .recvTimeout =>
        if attemptIdx = max_retries - 1 then
          (.raised "Test execution timeout after all retries",
            { stats with attemptsUsed := stats.attemptsUsed + 1 })
        else
          sendAndReceiveGo mid restAttempts (attemptIdx + 1) (retry_delay * 2)
            { attemptsUsed := stats.attemptsUsed + 1
              sleeps := stats.sleeps ++ [retry_delay] }
      | .connClosed m =>
        if attemptIdx = max_retries - 1 then
          (.raised ("Cannot connect to test runner: " ++ m),
            { stats with attemptsUsed := stats.attemptsUsed + 1 })
        else
          sendAndReceiveGo mid restAttempts (attemptIdx + 1) (retry_delay * 2)
            { attemptsUsed := stats.attemptsUsed + 1
              sleeps := stats.sleeps ++ [retry_delay] }
      | .runnerError m =>
        (.raised ("Test runner error: " ++ m),
          { stats with attemptsUsed := stats.attemptsUsed + 1 })
      | .badJson =>
        (.raised "Invalid response from test runner",
          { stats with attemptsUsed := stats.attemptsUsed + 1 })
      | .badFormat =>
        (.raised "Invalid response format from test runner",
          { stats with attemptsUsed := stats.attemptsUsed + 1 })
      | .individual _ _ =>
        (.raised "Invalid response format from test runner",
          { stats with attemptsUsed := stats.attemptsUsed + 1 })
      | .batch m rs =>
        (.returned rs (decide (m ≠ mid)),
          { stats with attemptsUsed := stats.attemptsUsed + 1 })

/-- `_send_and_receive` (lines 251-325). -/
def send_and_receive (mid : String) (attempts : List BatchAttemptSpec) :
    BatchOutcome × RetryStats :=
  sendAndReceiveGo mid attempts 0 2 ⟨0, []⟩

/-- `execute_tests` (lines 57-99): returns the runner's results, or — if
anything raised — one synthesized `Test runner communication error: …`
failure per test of the dispatch, carrying that test's original id. -/
def execute_tests (tests : List TestRequest) (mid : String)
    (attempts : List BatchAttemptSpec) : List TestResult :=
  match send_and_receive mid attempts with
  | (.returned results _, _) => results
  | (.raised msg, _) => tests.map (fun t => commError t.id msg)

/-- The `Test` model (`src/backend/websocket/models.py` lines 63-77):
`status` defaults to `"pending"`; the execution fields default to
`None` and are only filled in when a result is attached. -/
structure Test where
  id : String
  type : String
  name : String
  title : String
  code : String
  status : Option String := some "pending"
  execution_success : Option Bool := none
  execution_output : Option String := none
  execution_error : Option String := none
  execution_time : Option Nat := none
deriving DecidableEq

/-- The `ResponseMessage` envelope (`src/backend/websocket/models.py`
lines 80-98), restricted to the fields the verified handlers populate. -/
structure ResponseMessage where
  id : String
  type : String
  error_message : Option String := none
  unit_tests : Option (List Test) := none
  memory_tests : Option (List Test) := none
  performance_tests : Option (List Test) := none
  test_result : Option Test := none
deriving DecidableEq

/-- Modelled from the spec: the module `utils.websocket_utils` imported
by `src/backend/api/responses.py`, `src/backend/api/websocket/handlers.py`
and `src/backend/tests/handlers/*` is not present under `src/`; per the
spec's ResponseEnvelope (`{id: echoed correlation-id, type:
response-kind, payload...}`) its `prepare_response_message` builds a
response whose `id` is exactly the `message_id` argument the caller
supplies.  The payload field is chosen by the response kind. -/
def prepare_response_message (message_type : String) (message_id : String)
    (error_message : Option String)
    (unit_tests memory_tests performance_tests : Option (List Test))
    (test_result : Option Test) : ResponseMessage :=
  { id := message_id, type := message_type, error_message := error_message
    unit_tests := unit_tests, memory_tests := memory_tests
    performance_tests := performance_tests, test_result := test_result }

/-- `send_error_response` (`src/backend/api/responses.py` lines 5-14):
builds and sends an error response; its `message_id` parameter defaults
to the empty string, so callers that omit it (all the generation-error
constructors below) send a frame with id `""`.  The model returns the
frame that is sent. -/
def send_error_response (message_type : String) (error_message : String)
    (message_id : String) : ResponseMessage :=
  prepare_response_message message_type message_id (some error_message)
    none none none none

/-- `send_unit_tests_generation_error` (`api/responses.py` lines 51-56):
note that no `message_id` is passed, so the frame carries the default
empty id. -/
def send_unit_tests_generation_error (error : String) : ResponseMessage :=
  send_error_response "error" ("Failed to generate unit tests: " ++ error) ""

/-- `send_memory_tests_generation_error` (`api/responses.py` lines 59-64). -/
def send_memory_tests_generation_error (error : String) : ResponseMessage :=
  send_error_response "error" ("Failed to generate memory tests: " ++ error) ""

/-- `send_performance_tests_generation_error` (`api/responses.py`
lines 67-72). -/
def send_performance_tests_generation_error (error : String) : ResponseMessage :=
  send_error_response "error" ("Failed to generate performance tests: " ++ error) ""

/-- `self.response_types` (`test_generation_service.py` lines 26-30). -/
def response_type : String → String
  | "unit" => "return_unit_tests"
  | "memory" => "return_memory_tests"
  | "performance" => "return_performance_tests"
  | _ => "error"

/-- `self.error_handlers` (`test_generation_service.py` lines 32-36),
dispatching to the `api.responses` constructors above. -/
def error_handler (test_type : String) (error : String) : ResponseMessage :=
  match test_type with
  | "unit" => send_unit_tests_generation_error error
  | "memory" => send_memory_tests_generation_error error
  | "performance" => send_performance_tests_generation_error error
  | _ => send_error_response "error" error ""

/-- The kind-specific snapshot frame sent by `generate_and_send_test`
(`test_generation_service.py` lines 58-65 and 115-122):
`prepare_response_message(message_type=response_types[test_type],
message_id=message_id, **{f"{test_type}_tests": tests})`. -/
def kindSnapshot (test_type : String) (message_id : String)
    (tests : List Test) : ResponseMessage :=
  match test_type with
  | "unit" =>
    prepare_response_message "return_unit_tests" message_id none (some tests)
      none none none
  | "memory" =>
    prepare_response_message "return_memory_tests" message_id none none
      (some tests) none none
  | "performance" =>
    prepare_response_message "return_performance_tests" message_id none none
      none (some tests) none
  | other =>
    prepare_response_message (response_type other) message_id none
      none none none none

end CodeLens

namespace CodeLens

/-- Environment of one `generate_and_send_test` call
(`test_generation_service.py` lines 38-135): either the kind's generator
raises (`genFail`), or it returns `tests` and the subsequent streaming
execution invokes the result callback with `streamed` in order. -/
inductive GenEnv where
  | genFail (msg : String)
  | ok (tests : List Test) (streamed : List (String × TestResult))
deriving DecidableEq

/-- The field updates `handle_test_result_sync` performs on the matched
test (`test_generation_service.py` lines 77-81): execution fields are
copied from the result and `status` becomes `"success"`/`"failed"`. -/
def applyResult (t : Test) (r : TestResult) : Test :=
  { t with
    execution_success := some r.success
    execution_output := some r.output
    execution_error := r.error
    execution_time := r.execution_time
    status := some (if r.success then "success" else "failed") }

/-- The `for test in generated_tests: if test.id == test_id` lookup of
`handle_test_result_sync` (lines 70-74): mutate the **first** test whose
id matches, returning the updated list and the mutated test (if any). -/
def updateFirst (tests : List Test) (test_id : String) (r : TestResult) :
    List Test × Option Test :=
  match tests with
  | [] => ([], none)
  | t :: ts =>
    if t.id = test_id then
      (applyResult t r :: ts, some (applyResult t r))
    else
      (t :: (updateFirst ts test_id r).1, (updateFirst ts test_id r).2)

/-- `handle_test_result_sync` over the whole stream of callback
invocations: each `(test_id, result)` pair updates the matched test and,
when a match was found, emits one `test_result_update` frame carrying
the updated test (lines 69-109); unmatched ids emit nothing. -/
def processStreamed (message_id : String) :
    List Test → List (String × TestResult) → List ResponseMessage
  | _, [] => []
  | tests, (tid, r) :: rest =>
    match (updateFirst tests tid r).2 with
    | some t =>
      prepare_response_message "test_result_update" message_id none
        none none none (some t) ::
          processStreamed message_id (updateFirst tests tid r).1 rest
    | none => processStreamed message_id (updateFirst tests tid r).1 rest

/-- `generate_and_send_test` (`test_generation_service.py` lines 38-135)
as the ordered trace of frames written to the session websocket: on
generator success, the pending snapshot, then the running snapshot, then
one `test_result_update` per matched streamed result — the running
snapshot's send is awaited to completion *before*
`execute_tests_streaming` is entered, so every update frame follows it;
on generator failure, only the kind's error frame (sent with the default
empty id, line 135: `await error_handler(websocket, e)`). -/
def generate_and_send_test (test_type : String) (message_id : String)
    (env : GenEnv) : List ResponseMessage :=
  match env with
  | .genFail msg => [error_handler test_type msg]
  | .ok tests streamed =>
    let pending := tests.map (fun t => { t with status := some "pending" })
    let running := pending.map (fun t => { t with status := some "running" })
    kindSnapshot test_type message_id pending ::
      kindSnapshot test_type message_id running ::
        processStreamed message_id running streamed

/-- The positional result-attachment loop of `handle_run_tests_message`
(`tests/handlers/test_execution.py` lines 59-65 and
`websocket/test_execution.py` lines 53-59):
`for i, test in enumerate(tests): if i < len(test_results): …` — the
i-th test receives the fields of the i-th result; tests beyond the
result list are left untouched.  `status` is never written. -/
def attachResults : List Test → List TestResult → List Test
  | [], _ => []
  | ts, [] => ts
  | t :: ts, r :: rs =>
    { t with
      execution_success := some r.success
      execution_output := some r.output
      execution_error := r.error
      execution_time := r.execution_time } :: attachResults ts rs

/-- `handle_run_tests_message` (`tests/handlers/test_execution.py`
lines 14-109) after a completed dispatch: attach the runner's results by
position, group the tests by `type`, and emit one kind frame per
non-empty group, each carrying the request's `message_id`. -/
def handle_run_tests_message (message_id : String) (tests : List Test)
    (test_results : List TestResult) : List ResponseMessage :=
  let updated := attachResults tests test_results
  let unit_tests := updated.filter (fun t => t.type = "unit")
  let memory_tests := updated.filter (fun t => t.type = "memory")
  let performance_tests := updated.filter (fun t => t.type = "performance")
  (if unit_tests ≠ [] then
    [prepare_response_message "return_unit_tests" message_id none
      (some unit_tests) none none none]
   else []) ++
  (if memory_tests ≠ [] then
    [prepare_response_message "return_memory_tests" message_id none
      none (some memory_tests) none none]
   else []) ++
  (if performance_tests ≠ [] then
    [prepare_response_message "return_performance_tests" message_id none
      none none (some performance_tests) none]
   else [])

end CodeLens

namespace CodeLens

/-- Outcome of one Python step: a returned value, a raised `Exception`
(caught by `except Exception` clauses), or `asyncio.CancelledError` —
which in Python ≥ 3.8 derives from `BaseException`, **not** `Exception`,
so an `except Exception` clause does not catch it. -/
inductive PyOutcome (α : Type) where
  | ok (a : α)
  | exc (msg : String)
  | cancelled
deriving DecidableEq

/-- Environment of one `_execute_single_test` call in the Kubernetes
backend (`src/test-runner/main.py` lines 143-166): outcomes of the three
awaited steps, plus whether each delete call inside
`_cleanup_resources` would raise. -/
structure ExecEnv where
  createConfigmap : PyOutcome Unit
  createJob : PyOutcome Unit
  waitResult : PyOutcome TestResult
  deleteJobFails : Bool
  deleteConfigmapFails : Bool
deriving DecidableEq

/-- `_cleanup_resources` (`src/test-runner/main.py` lines 319-331): both
delete calls sit inside `try: … except Exception as e: logger.warning`;
whatever the Kubernetes API does, the function returns normally. -/
def cleanup_resources (deleteJobFails deleteConfigmapFails : Bool) :
    PyOutcome Unit :=
  match (if deleteJobFails then
          PyOutcome.exc "delete job failed"
         else if deleteConfigmapFails then
          PyOutcome.exc "delete configmap failed"
         else PyOutcome.ok ()) with
  | .exc _ => .ok ()
  | other => other

/-- What a run of `_execute_single_test` leaves behind: the control-flow
outcome (`ok r` = returned `r`; `cancelled` = the coroutine unwound with
`CancelledError`) and whether `_cleanup_resources` was invoked on the
way out. -/
structure ExecTrace where
  result : PyOutcome TestResult
  cleanupRan : Bool
deriving DecidableEq

/-- `_execute_single_test` of the Kubernetes backend
(`src/test-runner/main.py` lines 143-166).  The body is
`try: create configmap; create job; wait; cleanup; return result
except Exception: cleanup; return synthesized failure`.
`except Exception` does not catch `CancelledError`, and there is no
`finally`, so a cancellation at any awaited step unwinds without
cleanup.  When cleanup runs, its (always-ok) outcome gates the return
value exactly as sequencing does in the source. -/
def execute_single_test (test : TestRequest) (env : ExecEnv) : ExecTrace :=
  let afterCleanup (r : TestResult) : ExecTrace :=
    match cleanup_resources env.deleteJobFails env.deleteConfigmapFails with
    | .ok _ => { result := .ok r, cleanupRan := true }
    | .exc m => { result := .exc m, cleanupRan := true }
    | .cancelled => { result := .cancelled, cleanupRan := true }
  let excPath (m : String) : ExecTrace :=
    afterCleanup
      { test_id := test.id, success := false, output := ""
        error := some ("Execution error: " ++ m) }
  match env.createConfigmap with
  | .cancelled => { result := .cancelled, cleanupRan := false }
  | .exc m => excPath m
  | .ok _ =>
    match env.createJob with
    | .cancelled => { result := .cancelled, cleanupRan := false }
    | .exc m => excPath m
    | .ok _ =>
      match env.waitResult with
      | .cancelled => { result := .cancelled, cleanupRan := false }
      | .exc m => excPath m
      | .ok r => afterCleanup r

/-- Status of a finished Kubernetes Job as `_wait_for_job_completion`
observes it (`src/test-runner/main.py` lines 253-296). -/
inductive JobWaitOutcome where
  | succeeded
  | failed
  | timedOut
  | apiError (msg : String)
deriving DecidableEq

/-- The result mapping of `_wait_for_job_completion`
(`src/test-runner/main.py` lines 247-296): a succeeded job maps to
`{success: true, output: logs, execution_time}`; a failed job maps to
`{success: false, output: logs, error: "Test execution failed"}` — the
Job API exposes only success/failure, never the container's exit code;
the poll-loop timeout and `ApiException` branches synthesize their own
errors with empty output. -/
def wait_for_job_completion (test_id : String) (outcome : JobWaitOutcome)
    (logs : String) (elapsed : Nat) : TestResult :=
  match outcome with
  | .succeeded =>
    { test_id := test_id, success := true, output := logs
      execution_time := some elapsed }
  | .failed =>
    { test_id := test_id, success := false, output := logs
      error := some "Test execution failed" }
  | .timedOut =>
    { test_id := test_id, success := false, output := ""
      error := some "Test execution timeout" }
  | .apiError m =>
    { test_id := test_id, success := false, output := ""
      error := some ("Kubernetes API error: " ++ m) }

/-- Kubernetes Job semantics for this backend: the Job is created with
`backoff_limit=0` and `restart_policy="Never"`
(`src/test-runner/main.py` lines 208-212), so the Job succeeds exactly
when the single container run exits with code 0, and is failed for every
non-zero exit code — the code itself is not propagated to the Job
status that `_wait_for_job_completion` reads. -/
def jobOutcomeOfExit (exit_code : Nat) : JobWaitOutcome :=
  if exit_code = 0 then .succeeded else .failed

/-- The result a test that exits with `exit_code` produces in the
Kubernetes backend. -/
def k8s_result_of_exit (test_id : String) (exit_code : Nat) (logs : String)
    (elapsed : Nat) : TestResult :=
  wait_for_job_completion test_id (jobOutcomeOfExit exit_code) logs elapsed

/-- The result mapping of the Docker backend's `_execute_single_test`
(`src/test-runner-docker/main.py` lines 183-197):
`exit_code = result.get("StatusCode", 1); success = exit_code == 0`,
`error = None if success else f"Test execution failed (exit code: {exit_code})"`. -/
def docker_result_of_exit (test_id : String) (exit_code : Nat) (logs : String)
    (elapsed : Nat) : TestResult :=
  { test_id := test_id
    success := exit_code == 0
    output := logs
    error :=
      if exit_code == 0 then none
      else some ("Test execution failed (exit code: " ++ toString exit_code ++ ")")
    execution_time := some elapsed }

/-- `s` textually states the number `n` somewhere. -/
def MentionsNat (s : String) (n : Nat) : Prop :=
  ∃ pre post : String, s = pre ++ toString n ++ post

/-- The receive loop of `_send_and_receive_streaming` with wall-clock
accounting: each list entry `(d, e)` says the next socket event `e`
becomes available `d` seconds after the previous `recv` returned.  The
`asyncio.wait_for(websocket.recv(), timeout=self.execution_timeout)`
wrapper delivers the event when `d < EXECUTION_TIMEOUT` and otherwise
raises `TimeoutError` after waiting the full `EXECUTION_TIMEOUT`, which
the inner `except` turns into a `break`.  The second component of the
value is the total time spent waiting on `recv` calls. -/
def recvLoopTimed (mid : String) (total : Nat)
    (events : List (Nat × StreamEvent)) (completed : Nat)
    (acc : List (String × TestResult)) (waited : Nat) :
    List (String × TestResult) × Nat × LoopExit :=
  if total ≤ completed then (acc, waited, .done)
  else
    match events with
    | [] => (acc, waited + EXECUTION_TIMEOUT, .done)
    | (d, e) :: rest =>
      if EXECUTION_TIMEOUT ≤ d then (acc, waited + EXECUTION_TIMEOUT, .done)
      else
        match e with
        | .recvTimeout => (acc, waited + EXECUTION_TIMEOUT, .done)
        | .runnerError m => (acc, waited + d, .fatal ("Test runner error: " ++ m))
        | .badJson => (acc, waited + d, .fatal "Invalid response from test runner")
        | .badFormat =>
          (acc, waited + d, .fatal "Invalid response format from test runner")
        | .connClosed m => (acc, waited + d, .connLost m)
        | .individual m r =>
          if m = mid then
            recvLoopTimed mid total rest (completed + 1)
              (acc ++ [(r.test_id, r)]) (waited + d)
          else
            recvLoopTimed mid total rest completed acc (waited + d)
        | .batch m rs =>
          if m = mid then
            (acc ++ rs.map (fun r => (r.test_id, r)), waited + d, .done)
          else
            recvLoopTimed mid total rest completed acc (waited + d)

end CodeLens

namespace CodeLens

/-! ## Helper lemmas -/

theorem kindSnapshot_id (test_type message_id : String) (tests : List Test) :
    (kindSnapshot test_type message_id tests).id = message_id := by
  rw [kindSnapshot.eq_def]
  split <;> rfl

theorem error_handler_id (test_type msg : String) :
    (error_handler test_type msg).id = "" := by
  rw [error_handler.eq_def]
  split <;> rfl

theorem kindSnapshot_type_ne (test_type message_id : String) (tests : List Test) :
    (kindSnapshot test_type message_id tests).type ≠ "test_result_update" := by
  rw [kindSnapshot.eq_def]
  split
  · simp [prepare_response_message]
  · simp [prepare_response_message]
  · simp [prepare_response_message]
  · rw [response_type.eq_def]
    split <;> simp [prepare_response_message]

theorem recvLoopStreaming_all_matching (mid : String) (rs : List TestResult) :
    ∀ (total completed : Nat) (acc : List (String × TestResult)),
      completed + rs.length = total →
      recvLoopStreaming mid total (rs.map (fun r => .individual mid r)) completed acc
        = (acc ++ rs.map (fun r => (r.test_id, r)), .done) := by
  induction rs with
  | nil =>
    intro total completed acc h
    simp only [List.length_nil, Nat.add_zero] at h
    simp only [List.map_nil, List.append_nil]
    rw [recvLoopStreaming, if_pos (by omega)]
  | cons r rs ih =>
    intro total completed acc h
    simp only [List.length_cons] at h
    rw [List.map_cons, recvLoopStreaming, if_neg (by omega)]
    simp only [if_pos rfl]
    rw [ih total (completed + 1) (acc ++ [(r.test_id, r)]) (by omega)]
    simp

def eventMid : StreamEvent → Option String
  | .individual m _ => some m
  | .batch m _ => some m
  | _ => none

theorem recvLoopStreaming_mismatch (mid : String) :
    ∀ (events : List StreamEvent) (total completed : Nat)
      (acc : List (String × TestResult)),
      (∀ e ∈ events, ∃ m, eventMid e = some m ∧ m ≠ mid) →
      recvLoopStreaming mid total events completed acc = (acc, .done) := by
  intro events
  induction events with
  | nil =>
    intro total completed acc _
    rw [recvLoopStreaming]
    split <;> rfl
  | cons e rest ih =>
    intro total completed acc hall
    obtain ⟨m, hm, hne⟩ := hall e (by simp)
    have hrest : ∀ e ∈ rest, ∃ m, eventMid e = some m ∧ m ≠ mid := by
      intro e' he'
      exact hall e' (by simp [he'])
    cases e with
    | individual m' r =>
      simp only [eventMid, Option.some.injEq] at hm
      subst hm
      rw [recvLoopStreaming]
      split <;>
        first
        | rfl
        | exact ih total completed acc hrest
    | batch m' rs =>
      simp only [eventMid, Option.some.injEq] at hm
      subst hm
      rw [recvLoopStreaming]
      split <;>
        first
        | rfl
        | exact ih total completed acc hrest
    | runnerError m' => simp [eventMid] at hm
    | badJson => simp [eventMid] at hm
    | badFormat => simp [eventMid] at hm
    | recvTimeout => simp [eventMid] at hm
    | connClosed m' => simp [eventMid] at hm

theorem cleanup_resources_ok (b b' : Bool) :
    cleanup_resources b b' = .ok () := by
  cases b <;> cases b' <;> rfl

theorem updateFirst_spec (test_id : String) (r : TestResult) :
    ∀ tests : List Test,
      (updateFirst tests test_id r).1.map (fun t => t.id) = tests.map (fun t => t.id)
      ∧ ∀ t, (updateFirst tests test_id r).2 = some t →
          t.id ∈ tests.map (fun t => t.id)
          ∧ (t.status = some "success" ∨ t.status = some "failed") := by
  intro tests
  induction tests with
  | nil =>
    refine ⟨rfl, ?_⟩
    intro t ht
    simp [updateFirst] at ht
  | cons t0 ts ih =>
    obtain ⟨ih1, ih2⟩ := ih
    by_cases h : t0.id = test_id
    · refine ⟨by simp [updateFirst, h, applyResult], ?_⟩
      intro t ht
      simp only [updateFirst, if_pos h] at ht
      have ht' : t = applyResult t0 r := (Option.some.inj ht).symm
      subst ht'
      refine ⟨by simp [applyResult, h], ?_⟩
      cases hr : r.success <;> simp [applyResult, hr]
    · refine ⟨?_, ?_⟩
      · simp only [updateFirst, if_neg h, List.map_cons]
        rw [ih1]
      · intro t ht
        simp only [updateFirst, if_neg h] at ht
        obtain ⟨hmem, hst⟩ := ih2 t ht
        exact ⟨by simp [hmem], hst⟩

theorem processStreamed_spec (mid : String) :
    ∀ (streamed : List (String × TestResult)) (tests : List Test)
      (f : ResponseMessage), f ∈ processStreamed mid tests streamed →
      f.type = "test_result_update" ∧ f.id = mid
      ∧ ∃ t, f.test_result = some t
          ∧ t.id ∈ tests.map (fun t => t.id)
          ∧ (t.status = some "success" ∨ t.status = some "failed") := by
  intro streamed
  induction streamed with
  | nil =>
    intro tests f hf
    simp [processStreamed] at hf
  | cons p rest ih =>
    intro tests f hf
    obtain ⟨tid, r⟩ := p
    obtain ⟨hids, hfound⟩ := updateFirst_spec tid r tests
    rw [processStreamed] at hf
    rcases hu : (updateFirst tests tid r).2 with _ | t
    · rw [hu] at hf
      obtain ⟨h1, h2, t', ht', hmem, hst⟩ := ih (updateFirst tests tid r).1 f hf
      exact ⟨h1, h2, t', ht', by rw [hids] at hmem; exact hmem, hst⟩
    · rw [hu] at hf
      rcases List.mem_cons.mp hf with hhead | htail
      · subst hhead
        obtain ⟨hmem, hst⟩ := hfound t hu
        exact ⟨rfl, rfl, t, rfl, hmem, hst⟩
      · obtain ⟨h1, h2, t', ht', hmem, hst⟩ :=
          ih (updateFirst tests tid r).1 f htail
        exact ⟨h1, h2, t', ht', by rw [hids] at hmem; exact hmem, hst⟩

/-- The last iteration of the streaming retry loop (index 2 of
`range(3)`) never sleeps: every retryable failure re-raises instead. -/
theorem goStream_stats_last (mid : String) (total : Nat)
    (spec : AttemptSpec) (rest : List AttemptSpec) (d : Nat)
    (acc : List (String × TestResult)) (stats : RetryStats) :
    (sendAndReceiveStreamingGo mid total (spec :: rest) 2 d acc stats).2.2
      = { attemptsUsed := stats.attemptsUsed + 1, sleeps := stats.sleeps } := by
  cases spec with
  | connectTimeout => rfl
  | connectError m => rfl
  | connected events =>
    rw [sendAndReceiveStreamingGo]
    rcases h : streamingAttempt mid total events with ⟨del, exit⟩
    cases exit <;> simp [h, max_retries]

/-- From iteration 1, at most one more sleep (of the current delay)
happens and at most two more attempts run. -/
theorem goStream_stats_mid (mid : String) (total : Nat)
    (attempts : List AttemptSpec) (spec : AttemptSpec) (d : Nat)
    (acc : List (String × TestResult)) (stats : RetryStats) :
    (sendAndReceiveStreamingGo mid total (spec :: attempts) 1 d acc stats).2.2.attemptsUsed
        ≤ stats.attemptsUsed + 2
    ∧ ((sendAndReceiveStreamingGo mid total (spec :: attempts) 1 d acc stats).2.2.sleeps
          = stats.sleeps
        ∨ (sendAndReceiveStreamingGo mid total (spec :: attempts) 1 d acc stats).2.2.sleeps
          = stats.sleeps ++ [d]) := by
  have hretry : ∀ (acc' : List (String × TestResult)),
      (sendAndReceiveStreamingGo mid total attempts 2 (d * 2) acc'
        { attemptsUsed := stats.attemptsUsed + 1
          sleeps := stats.sleeps ++ [d] }).2.2.attemptsUsed
          ≤ stats.attemptsUsed + 2
      ∧ ((sendAndReceiveStreamingGo mid total attempts 2 (d * 2) acc'
            { attemptsUsed := stats.attemptsUsed + 1
              sleeps := stats.sleeps ++ [d] }).2.2.sleeps
          = stats.sleeps ++ [d]) := by
    intro acc'
    cases attempts with
    | nil =>
      constructor
      · rw [sendAndReceiveStreamingGo]
        show stats.attemptsUsed + 1 ≤ stats.attemptsUsed + 2
        omega
      · rw [sendAndReceiveStreamingGo]
    | cons spec' rest' =>
      rw [goStream_stats_last]
      constructor
      · show stats.attemptsUsed + 1 + 1 ≤ stats.attemptsUsed + 2
        omega
      · rfl
  cases spec with
  | connectTimeout =>
    rw [sendAndReceiveStreamingGo]
    simp only [max_retries]
    rw [if_neg (by decide)]
    exact ⟨(hretry acc).1, Or.inr (hretry acc).2⟩
  | connectError m =>
    rw [sendAndReceiveStreamingGo]
    simp only [max_retries]
    rw [if_neg (by decide)]
    exact ⟨(hretry acc).1, Or.inr (hretry acc).2⟩
  | connected events =>
    rw [sendAndReceiveStreamingGo]
    rcases h : streamingAttempt mid total events with ⟨del, exit⟩
    cases exit with
    | done =>
      refine ⟨?_, Or.inl ?_⟩
      · show stats.attemptsUsed + 1 ≤ stats.attemptsUsed + 2
        omega
      · rfl
    | fatal m =>
      refine ⟨?_, Or.inl ?_⟩
      · show stats.attemptsUsed + 1 ≤ stats.attemptsUsed + 2
        omega
      · rfl
    | connLost m =>
      simp only [max_retries]
      rw [if_neg (by decide)]
      exact ⟨(hretry (acc ++ del)).1, Or.inr (hretry (acc ++ del)).2⟩

/-- From iteration 0 (a fresh call), at most three attempts run and the
sleeps performed are a prefix of `[d, d * 2]`. -/
theorem goStream_stats_first (mid : String) (total : Nat)
    (attempts : List AttemptSpec) (d : Nat)
    (acc : List (String × TestResult)) (stats : RetryStats) :
    (sendAndReceiveStreamingGo mid total attempts 0 d acc stats).2.2.attemptsUsed
        ≤ stats.attemptsUsed + 3
    ∧ ((sendAndReceiveStreamingGo mid total attempts 0 d acc stats).2.2.sleeps
          = stats.sleeps
        ∨ (sendAndReceiveStreamingGo mid total attempts 0 d acc stats).2.2.sleeps
          = stats.sleeps ++ [d]
        ∨ (sendAndReceiveStreamingGo mid total attempts 0 d acc stats).2.2.sleeps
          = stats.sleeps ++ [d, d * 2]) := by
  have hretry : ∀ (acc' : List (String × TestResult)),
      (sendAndReceiveStreamingGo mid total attempts.tail 1 (d * 2) acc'
        { attemptsUsed := stats.attemptsUsed + 1
          sleeps := stats.sleeps ++ [d] }).2.2.attemptsUsed
          ≤ stats.attemptsUsed + 3
      ∧ ((sendAndReceiveStreamingGo mid total attempts.tail 1 (d * 2) acc'
            { attemptsUsed := stats.attemptsUsed + 1
              sleeps := stats.sleeps ++ [d] }).2.2.sleeps
            = stats.sleeps ++ [d]
          ∨ (sendAndReceiveStreamingGo mid total attempts.tail 1 (d * 2) acc'
              { attemptsUsed := stats.attemptsUsed + 1
                sleeps := stats.sleeps ++ [d] }).2.2.sleeps
            = stats.sleeps ++ [d, d * 2]) := by
    intro acc'
    cases hatt : attempts.tail with
    | nil =>
      constructor
      · rw [sendAndReceiveStreamingGo]
        show stats.attemptsUsed + 1 ≤ stats.attemptsUsed + 3
        omega
      · left
        rw [sendAndReceiveStreamingGo]
    | cons spec' rest' =>
      obtain ⟨h1, h2⟩ := goStream_stats_mid mid total rest' spec' (d * 2) acc'
        { attemptsUsed := stats.attemptsUsed + 1
          sleeps := stats.sleeps ++ [d] }
      constructor
      · refine le_trans h1 ?_
        show stats.attemptsUsed + 1 + 2 ≤ stats.attemptsUsed + 3
        omega
      · rcases h2 with h2 | h2
        · left
          rw [h2]
        · right
          rw [h2]
          simp
  cases attempts with
  | nil =>
    constructor
    · rw [sendAndReceiveStreamingGo]
      show stats.attemptsUsed ≤ stats.attemptsUsed + 3
      omega
    · left
      rw [sendAndReceiveStreamingGo]
  | cons spec rest =>
    cases spec with
    | connectTimeout =>
      rw [sendAndReceiveStreamingGo]
      simp only [max_retries]
      rw [if_neg (by decide)]
      obtain ⟨h1, h2⟩ := hretry acc
      exact ⟨h1, Or.inr (by simpa using h2)⟩
    | connectError m =>
      rw [sendAndReceiveStreamingGo]
      simp only [max_retries]
      rw [if_neg (by decide)]
      obtain ⟨h1, h2⟩ := hretry acc
      exact ⟨h1, Or.inr (by simpa using h2)⟩
    | connected events =>
      rw [sendAndReceiveStreamingGo]
      rcases h : streamingAttempt mid total events with ⟨del, exit⟩
      cases exit with
      | done =>
        refine ⟨?_, Or.inl ?_⟩
        · show stats.attemptsUsed + 1 ≤ stats.attemptsUsed + 3
          omega
        · rfl
      | fatal m =>
        refine ⟨?_, Or.inl ?_⟩
        · show stats.attemptsUsed + 1 ≤ stats.attemptsUsed + 3
          omega
        · rfl
      | connLost m =>
        simp only [max_retries]
        rw [if_neg (by decide)]
        obtain ⟨h1, h2⟩ := hretry (acc ++ del)
        exact ⟨h1, Or.inr (by simpa using h2)⟩

/-- Callbacks only come from frames received within the per-`recv`
execution timeout: an event whose wait reaches `EXECUTION_TIMEOUT` makes
`asyncio.wait_for` fire, the loop breaks, and everything after it is
never read. -/
theorem recvLoopTimed_takeWhile (mid : String) (total : Nat) :
    ∀ (events : List (Nat × StreamEvent)) (completed : Nat)
      (acc : List (String × TestResult)) (waited : Nat),
      (recvLoopTimed mid total events completed acc waited).1
        = (recvLoopTimed mid total
            (events.takeWhile (fun p => decide (p.1 < EXECUTION_TIMEOUT)))
            completed acc waited).1 := by
  intro events
  induction events with
  | nil => intro completed acc waited; rfl
  | cons p rest ih =>
    intro completed acc waited
    obtain ⟨d, e⟩ := p
    by_cases hc : total ≤ completed
    · rw [recvLoopTimed.eq_def, if_pos hc, recvLoopTimed.eq_def, if_pos hc]
    · by_cases hd : EXECUTION_TIMEOUT ≤ d
      · have htw : List.takeWhile (fun p => decide (p.1 < EXECUTION_TIMEOUT))
            ((d, e) :: rest) = [] := by
          rw [List.takeWhile_cons]
          simp only [decide_eq_true_eq]
          rw [if_neg (by omega)]
        rw [htw]
        have hnil : recvLoopTimed mid total [] completed acc waited
            = (acc, waited + EXECUTION_TIMEOUT, .done) := by
          rw [recvLoopTimed, if_neg hc]
        rw [hnil]
        cases e <;> rw [recvLoopTimed, if_neg hc, if_pos hd]
      · have htw : List.takeWhile (fun p => decide (p.1 < EXECUTION_TIMEOUT))
            ((d, e) :: rest)
            = (d, e) :: rest.takeWhile (fun p => decide (p.1 < EXECUTION_TIMEOUT)) := by
          rw [List.takeWhile_cons]
          simp only [decide_eq_true_eq]
          rw [if_pos (by omega)]
        rw [htw]
        cases e with
        | individual m r =>
          rw [recvLoopTimed, if_neg hc, if_neg hd]
          rw [recvLoopTimed, if_neg hc, if_neg hd]
          by_cases hm : m = mid
          · rw [if_pos hm, if_pos hm]
            exact ih (completed + 1) (acc ++ [(r.test_id, r)]) (waited + d)
          · rw [if_neg hm, if_neg hm]
            exact ih completed acc (waited + d)
        | batch m rs =>
          rw [recvLoopTimed, if_neg hc, if_neg hd]
          rw [recvLoopTimed, if_neg hc, if_neg hd]
          by_cases hm : m = mid
          · rw [if_pos hm, if_pos hm]
          · rw [if_neg hm, if_neg hm]
            exact ih completed acc (waited + d)
        | runnerError m =>
          rw [recvLoopTimed, if_neg hc, if_neg hd]
          rw [recvLoopTimed, if_neg hc, if_neg hd]
        | badJson =>
          rw [recvLoopTimed, if_neg hc, if_neg hd]
          rw [recvLoopTimed, if_neg hc, if_neg hd]
        | badFormat =>
          rw [recvLoopTimed, if_neg hc, if_neg hd]
          rw [recvLoopTimed, if_neg hc, if_neg hd]
        | recvTimeout =>
          rw [recvLoopTimed, if_neg hc, if_neg hd]
          rw [recvLoopTimed, if_neg hc, if_neg hd]
        | connClosed m =>
          rw [recvLoopTimed, if_neg hc, if_neg hd]
          rw [recvLoopTimed, if_neg hc, if_neg hd]

/-! ## Claim theorems -/

/-- C1 (amended): in streaming mode, when every dispatched test's
matching individual result frame arrives before the per-receive timeout
(in any order, one frame per test), the result callback is invoked
exactly once per `test_id`: for every id, the number of callback
invocations equals the number of requested tests bearing that id.  (The
original claim also covered reply timeouts; see the counterexample —
a timeout breaks the receive loop and the remaining tests' callbacks are
simply skipped.) -/
theorem C1_streaming_exactly_once (tests : List TestRequest) (mid : String)
    (rs : List TestResult)
    (hperm : List.Perm (rs.map (fun r => r.test_id)) (tests.map (fun t => t.id))) :
    ∀ tid : String,
      ((execute_tests_streaming tests mid
          [.connected (rs.map (fun r => .individual mid r))]).map Prod.fst).count tid
        = (tests.map (fun t => t.id)).count tid := by
  have hlen : rs.length = tests.length := by
    have h := hperm.length_eq
    simpa using h
  have hrecv := recvLoopStreaming_all_matching mid rs tests.length 0 [] (by omega)
  have hgo : send_and_receive_streaming mid tests.length
      [.connected (rs.map (fun r => .individual mid r))]
      = (rs.map (fun r => (r.test_id, r)), .returned, ⟨1, []⟩) := by
    rw [send_and_receive_streaming, sendAndReceiveStreamingGo, streamingAttempt,
      hrecv]
    simp
  intro tid
  rw [execute_tests_streaming, hgo]
  rw [List.map_map]
  have hcomp : (Prod.fst ∘ fun r : TestResult => (r.test_id, r))
      = fun r : TestResult => r.test_id := rfl
  rw [hcomp]
  exact hperm.count_eq tid

/-- Witness for C1: two tests, replies out of order; each test id is
delivered exactly once. -/
theorem C1_streaming_exactly_once_witness :
    ((execute_tests_streaming
        [{ id := "t1", type := "unit", name := "n1", title := "ti1", code := "c1" },
         { id := "t2", type := "unit", name := "n2", title := "ti2", code := "c2" }]
        "m"
        [.connected
          [.individual "m" { test_id := "t2", success := false, output := "bad" },
           .individual "m" { test_id := "t1", success := true, output := "ok" }]]).map
        Prod.fst).count "t1"
      = ([{ id := "t1", type := "unit", name := "n1", title := "ti1", code := "c1" },
          { id := "t2", type := "unit", name := "n2", title := "ti2", code := "c2" }].map
            (fun t : TestRequest => t.id)).count "t1" :=
  C1_streaming_exactly_once
    [{ id := "t1", type := "unit", name := "n1", title := "ti1", code := "c1" },
     { id := "t2", type := "unit", name := "n2", title := "ti2", code := "c2" }]
    "m"
    [{ test_id := "t2", success := false, output := "bad" },
     { test_id := "t1", success := true, output := "ok" }]
    (by decide) "t1"

/-- Counterexample to C1 as stated: when the reply stream times out, the
dispatched test's callback is invoked zero times, not once — the inner
`except asyncio.TimeoutError` breaks the `while` loop and
`_send_and_receive_streaming` returns normally, so the `except` block of
`execute_tests_streaming` never synthesizes a failure. -/
theorem C1_counterexample :
    ((execute_tests_streaming
        [{ id := "t1", type := "unit", name := "n", title := "ti", code := "c" }]
        "m" [.connected [.recvTimeout]]).map Prod.fst).count "t1" = 0
    ∧ (0 : Nat) ≠ 1 :=
  ⟨rfl, by decide⟩

/-- C2 (amended): a dispatch-wide failure synthesizes one
`{success: false}` result per test, carrying the test's original id and
an error prefixed `Test runner communication error`, in these cases:
connection attempts exhausted (both paths), decode error (both paths),
and overall reply timeout in the **batched** path.  A reply timeout in
the streaming path, by contrast, returns without synthesizing anything
(see the counterexample). -/
theorem C2_synthesized_failures (tests : List TestRequest) (mid msg : String) :
    execute_tests tests mid
        [.connectError msg, .connectError msg, .connectError msg]
      = tests.map (fun t =>
          commError t.id ("Cannot connect to test runner: " ++ msg))
    ∧ execute_tests tests mid [.connected .badJson]
      = tests.map (fun t => commError t.id "Invalid response from test runner")
    ∧ execute_tests tests mid
        [.connected .recvTimeout, .connected .recvTimeout, .connected .recvTimeout]
      = tests.map (fun t =>
          commError t.id "Test execution timeout after all retries")
    ∧ execute_tests_streaming tests mid
        [.connectError msg, .connectError msg, .connectError msg]
      = tests.map (fun t =>
          (t.id, commError t.id ("Cannot connect to test runner: " ++ msg)))
    ∧ execute_tests_streaming tests mid [.connected [.badJson]]
      = tests.map (fun t =>
          (t.id, commError t.id "Invalid response from test runner")) := by
  refine ⟨rfl, rfl, rfl, rfl, ?_⟩
  cases tests with
  | nil => rfl
  | cons t ts => rfl

/-- Counterexample to C2 as stated: in the streaming path an overall
reply timeout fails the dispatch as a whole (one of two tests never got
a result), yet the second test receives no synthesized failure at all —
its id appears in zero callbacks. -/
theorem C2_counterexample :
    execute_tests_streaming
        [{ id := "t1", type := "unit", name := "n1", title := "ti1", code := "c1" },
         { id := "t2", type := "unit", name := "n2", title := "ti2", code := "c2" }]
        "m"
        [.connected
          [.individual "m" { test_id := "t1", success := true, output := "ok" },
           .recvTimeout]]
      = [("t1", { test_id := "t1", success := true, output := "ok" })]
    ∧ ((execute_tests_streaming
        [{ id := "t1", type := "unit", name := "n1", title := "ti1", code := "c1" },
         { id := "t2", type := "unit", name := "n2", title := "ti2", code := "c2" }]
        "m"
        [.connected
          [.individual "m" { test_id := "t1", success := true, output := "ok" },
           .recvTimeout]]).map Prod.fst).count "t2" = 0 :=
  ⟨rfl, rfl⟩

/-- C8 (amended): the batched path warns on a `message_id` mismatch but
returns the mismatched results to the caller anyway, while the streaming
path skips every frame carrying a foreign `message_id` silently (no
delivery — and the source has no logging statement on that path). -/
theorem C8_mismatch_handling (mid mid' : String) (rs : List TestResult)
    (events : List StreamEvent) (total completed : Nat)
    (acc : List (String × TestResult))
    (hne : mid' ≠ mid)
    (hforeign : ∀ e ∈ events, ∃ m, eventMid e = some m ∧ m ≠ mid) :
    send_and_receive mid [.connected (.batch mid' rs)]
      = (.returned rs true, ⟨1, []⟩)
    ∧ send_and_receive mid [.connected (.batch mid rs)]
      = (.returned rs false, ⟨1, []⟩)
    ∧ recvLoopStreaming mid total events completed acc = (acc, .done) := by
  refine ⟨?_, ?_, recvLoopStreaming_mismatch mid events total completed acc hforeign⟩
  · rw [send_and_receive, sendAndReceiveGo]
    simp [hne]
  · rw [send_and_receive, sendAndReceiveGo]
    simp

/-- Witness for C8: a mismatched batched reply is returned with the
warning flag set; a mismatched streaming frame delivers nothing. -/
theorem C8_mismatch_handling_witness :
    send_and_receive "a"
        [.connected (.batch "b" [{ test_id := "t1", success := true, output := "ok" }])]
      = (.returned [{ test_id := "t1", success := true, output := "ok" }] true, ⟨1, []⟩)
    ∧ send_and_receive "a"
        [.connected (.batch "a" [{ test_id := "t1", success := true, output := "ok" }])]
      = (.returned [{ test_id := "t1", success := true, output := "ok" }] false, ⟨1, []⟩)
    ∧ recvLoopStreaming "a" 1
        [.individual "b" { test_id := "t1", success := true, output := "ok" }] 0 []
      = ([], .done) :=
  C8_mismatch_handling "a" "b"
    [{ test_id := "t1", success := true, output := "ok" }]
    [.individual "b" { test_id := "t1", success := true, output := "ok" }] 1 0 []
    (by decide)
    (by
      intro e he
      simp only [List.mem_singleton] at he
      subst he
      exact ⟨"b", rfl, by decide⟩)

/-- Counterexample to C8 as stated: the batched path receives a reply
whose `message_id` `"b"` differs from the sent `"a"`, logs the warning —
and still hands the mismatched results to the `run_tests` handler. -/
theorem C8_counterexample :
    execute_tests
        [{ id := "t1", type := "unit", name := "n", title := "ti", code := "c" }]
        "a"
        [.connected (.batch "b" [{ test_id := "t1", success := true, output := "ok" }])]
      = [{ test_id := "t1", success := true, output := "ok" }] := rfl

/-- C9 (amended): every dispatch makes at most 3 connection attempts,
the per-attempt connect timeout is the constant 60 s, the sleeps between
attempts are exactly a prefix of `[2, 4]` seconds (2 before the second
attempt, 4 before the third), and after a successful send each
*individual* reply wait is bounded by the 300 s execution timeout: an
event arriving at or after that bound times the loop out, and nothing
beyond it is ever delivered.  (The 300 s bound is applied per
`websocket.recv()`, not to the reply phase as a whole — see the
counterexample.) -/
theorem C9_retry_policy (mid : String) (total : Nat)
    (attempts : List AttemptSpec) (events : List (Nat × StreamEvent))
    (completed : Nat) (acc : List (String × TestResult)) (waited : Nat) :
    CONNECTION_TIMEOUT = 60 ∧ EXECUTION_TIMEOUT = 300 ∧ max_retries = 3
    ∧ (send_and_receive_streaming mid total attempts).2.2.attemptsUsed ≤ 3
    ∧ ((send_and_receive_streaming mid total attempts).2.2.sleeps = []
       ∨ (send_and_receive_streaming mid total attempts).2.2.sleeps = [2]
       ∨ (send_and_receive_streaming mid total attempts).2.2.sleeps = [2, 4])
    ∧ (recvLoopTimed mid total events completed acc waited).1
        = (recvLoopTimed mid total
            (events.takeWhile (fun p => decide (p.1 < EXECUTION_TIMEOUT)))
            completed acc waited).1 := by
  obtain ⟨h1, h2⟩ := goStream_stats_first mid total attempts 2 [] ⟨0, []⟩
  refine ⟨rfl, rfl, rfl, ?_, ?_,
    recvLoopTimed_takeWhile mid total events completed acc waited⟩
  · rw [send_and_receive_streaming]
    simpa using h1
  · rw [send_and_receive_streaming]
    rcases h2 with h2 | h2 | h2
    · exact Or.inl (by simpa using h2)
    · exact Or.inr (Or.inl (by simpa using h2))
    · exact Or.inr (Or.inr (by simpa using h2))

/-- Counterexample to C9 as stated: two replies each arriving after
299 s are both delivered — the dispatch waits 598 s for replies after a
successful send, exceeding the supposed 300 s bound, because the
execution timeout restarts at every `recv`. -/
theorem C9_counterexample :
    recvLoopTimed "m" 2
        [(299, .individual "m" { test_id := "t1", success := true, output := "" }),
         (299, .individual "m" { test_id := "t2", success := true, output := "" })]
        0 [] 0
      = ([("t1", { test_id := "t1", success := true, output := "" }),
          ("t2", { test_id := "t2", success := true, output := "" })], 598, .done)
    ∧ 300 < 598 :=
  ⟨rfl, by decide⟩

/-- C3 (amended): within `generate_and_send_test`, every frame of the
successful branch — the pending snapshot, the running snapshot and every
`test_result_update` — carries the originating request's id, but the
per-kind generation `error` frames are sent through
`error_handler(websocket, e)` without the `message_id`, so they carry
the default empty id instead of the request's id. -/
theorem C3_correlation_id (test_type mid : String) (tests : List Test)
    (streamed : List (String × TestResult)) :
    (∀ f ∈ generate_and_send_test test_type mid (.ok tests streamed), f.id = mid)
    ∧ ∀ msg : String,
        ∀ f ∈ generate_and_send_test test_type mid (.genFail msg), f.id = "" := by
  constructor
  · intro f hf
    simp only [generate_and_send_test] at hf
    rcases List.mem_cons.mp hf with h | hf
    · subst h
      exact kindSnapshot_id test_type mid _
    rcases List.mem_cons.mp hf with h | hf
    · subst h
      exact kindSnapshot_id test_type mid _
    · exact (processStreamed_spec mid streamed _ f hf).2.1
  · intro msg f hf
    simp only [generate_and_send_test, List.mem_singleton] at hf
    subst hf
    exact error_handler_id test_type msg

/-- Witness for C3: a generation failure for the unit kind emits a frame
with the empty id. -/
theorem C3_correlation_id_witness :
    (error_handler "unit" "boom").id = "" :=
  (C3_correlation_id "unit" "a" [] []).2 "boom" (error_handler "unit" "boom")
    (by simp [generate_and_send_test])

/-- Counterexample to C3 as stated: a `generate_tests` request with id
`"a"` whose unit-kind generation fails is answered with an `error` frame
whose id is `""`, not `"a"`. -/
theorem C3_counterexample :
    generate_and_send_test "unit" "a" (.genFail "boom")
      = [{ id := "", type := "error",
           error_message := some "Failed to generate unit tests: boom",
           unit_tests := none, memory_tests := none,
           performance_tests := none, test_result := none }]
    ∧ ("" : String) ≠ "a" :=
  ⟨rfl, by decide⟩

/-- C7 (confirmed): within one kind of a `generate_tests` request, the
first frame is the pending snapshot, the second is the running snapshot,
every `test_result_update` frame comes strictly after both, and each
update carries a test of that kind's generated list with a terminal
status. -/
theorem C7_frame_ordering (test_type mid : String) (tests : List Test)
    (streamed : List (String × TestResult)) :
    (generate_and_send_test test_type mid (.ok tests streamed))[0]?
      = some (kindSnapshot test_type mid
          (tests.map (fun t => { t with status := some "pending" })))
    ∧ (generate_and_send_test test_type mid (.ok tests streamed))[1]?
      = some (kindSnapshot test_type mid
          ((tests.map (fun t => { t with status := some "pending" })).map
            (fun t => { t with status := some "running" })))
    ∧ (∀ (i : Nat) (f : ResponseMessage),
        (generate_and_send_test test_type mid (.ok tests streamed))[i]? = some f →
        f.type = "test_result_update" → 2 ≤ i)
    ∧ (∀ (i : Nat) (f : ResponseMessage),
        (generate_and_send_test test_type mid (.ok tests streamed))[i]? = some f →
        f.type = "test_result_update" →
        ∃ t, f.test_result = some t ∧ t.id ∈ tests.map (fun t => t.id)
          ∧ (t.status = some "success" ∨ t.status = some "failed")) := by
  have hids : ((tests.map (fun t => { t with status := some "pending" })).map
        (fun t => { t with status := some "running" })).map (fun t : Test => t.id)
      = tests.map (fun t => t.id) := by
    simp [List.map_map]
  refine ⟨?_, ?_, ?_, ?_⟩
  · simp [generate_and_send_test]
  · simp [generate_and_send_test]
  · intro i f hf hty
    match i with
    | 0 =>
      simp only [generate_and_send_test, List.getElem?_cons_zero,
        Option.some.injEq] at hf
      subst hf
      exact absurd hty (kindSnapshot_type_ne test_type mid _)
    | 1 =>
      simp only [generate_and_send_test, List.getElem?_cons_succ,
        List.getElem?_cons_zero, Option.some.injEq] at hf
      subst hf
      exact absurd hty (kindSnapshot_type_ne test_type mid _)
    | n + 2 => omega
  · intro i f hf hty
    match i with
    | 0 =>
      simp only [generate_and_send_test, List.getElem?_cons_zero,
        Option.some.injEq] at hf
      subst hf
      exact absurd hty (kindSnapshot_type_ne test_type mid _)
    | 1 =>
      simp only [generate_and_send_test, List.getElem?_cons_succ,
        List.getElem?_cons_zero, Option.some.injEq] at hf
      subst hf
      exact absurd hty (kindSnapshot_type_ne test_type mid _)
    | n + 2 =>
      simp only [generate_and_send_test, List.getElem?_cons_succ] at hf
      have hmem : f ∈ processStreamed mid
          ((tests.map (fun t => { t with status := some "pending" })).map
            (fun t => { t with status := some "running" })) streamed := by
        exact List.getElem?_mem hf
      obtain ⟨_, _, t, ht, hmemid, hst⟩ :=
        processStreamed_spec mid streamed _ f hmem
      rw [hids] at hmemid
      exact ⟨t, ht, hmemid, hst⟩

/-- Witness for C7: one unit test, one streamed failure; the pending
snapshot is frame 0 and the update frame sits at index 2 ≥ 2. -/
theorem C7_frame_ordering_witness :
    (generate_and_send_test "unit" "a"
        (.ok [{ id := "t1", type := "unit", name := "n", title := "ti",
                code := "c" }]
          [("t1", { test_id := "t1", success := false, output := "boom",
                    error := some "e" })]))[0]?
      = some (kindSnapshot "unit" "a"
          [{ id := "t1", type := "unit", name := "n", title := "ti",
             code := "c", status := some "pending" }])
    ∧ 2 ≤ 2 :=
  ⟨by
    have h := (C7_frame_ordering "unit" "a"
      [{ id := "t1", type := "unit", name := "n", title := "ti", code := "c" }]
      [("t1", { test_id := "t1", success := false, output := "boom",
                error := some "e" })]).1
    exact h,
   (C7_frame_ordering "unit" "a"
      [{ id := "t1", type := "unit", name := "n", title := "ti", code := "c" }]
      [("t1", { test_id := "t1", success := false, output := "boom",
                error := some "e" })]).2.2.1 2
      { id := "a", type := "test_result_update", error_message := none,
        unit_tests := none, memory_tests := none, performance_tests := none,
        test_result := some
          { id := "t1", type := "unit", name := "n", title := "ti", code := "c",
            status := some "failed", execution_success := some false,
            execution_output := some "boom", execution_error := some "e",
            execution_time := none } }
      (by rfl) (by rfl)⟩

/-- C6 (amended): the `run_tests` handler copies the failing result's
fields into the test's `exec` record — `execution_success = false` and
the runner's error string — but never writes `status`: the test is sent
back with its status unchanged (the model default `"pending"`), not
`"failed"`. -/
theorem C6_run_tests_exec_fields (mid : String) (t : Test) (r : TestResult)
    (h : t.type = "unit") :
    handle_run_tests_message mid [t] [r]
      = [prepare_response_message "return_unit_tests" mid none
          (some [{ t with
                    execution_success := some r.success
                    execution_output := some r.output
                    execution_error := r.error
                    execution_time := r.execution_time }]) none none none]
    ∧ ({ t with
          execution_success := some r.success
          execution_output := some r.output
          execution_error := r.error
          execution_time := r.execution_time } : Test).status = t.status := by
  refine ⟨?_, rfl⟩
  simp [handle_run_tests_message, attachResults, h]

/-- Witness for C6: a unit test with a failing result is sent back with
`execution_success = some false` and its status untouched. -/
theorem C6_run_tests_exec_fields_witness :
    handle_run_tests_message "a"
        [{ id := "t1", type := "unit", name := "n", title := "ti", code := "c" }]
        [{ test_id := "t1", success := false, output := "boom",
           error := some "Test execution failed (exit code: 1)" }]
      = [prepare_response_message "return_unit_tests" "a" none
          (some [{ id := "t1", type := "unit", name := "n", title := "ti",
                   code := "c", status := some "pending",
                   execution_success := some false,
                   execution_output := some "boom",
                   execution_error := some "Test execution failed (exit code: 1)",
                   execution_time := none }]) none none none]
    ∧ (some "pending" : Option String) = some "pending" :=
  ⟨(C6_run_tests_exec_fields "a"
      { id := "t1", type := "unit", name := "n", title := "ti", code := "c" }
      { test_id := "t1", success := false, output := "boom",
        error := some "Test execution failed (exit code: 1)" } rfl).1,
   rfl⟩

/-- Counterexample to C6 as stated: after a failed execution the emitted
`return_unit_tests` frame carries the test with `exec.success = false`
but `status = "pending"` — the handler never sets the terminal status. -/
theorem C6_counterexample :
    handle_run_tests_message "a"
        [{ id := "t1", type := "unit", name := "n", title := "ti", code := "c" }]
        [{ test_id := "t1", success := false, output := "boom",
           error := some "Test execution failed (exit code: 1)" }]
      = [{ id := "a", type := "return_unit_tests", error_message := none,
           unit_tests := some
             [{ id := "t1", type := "unit", name := "n", title := "ti",
                code := "c", status := some "pending",
                execution_success := some false,
                execution_output := some "boom",
                execution_error := some "Test execution failed (exit code: 1)",
                execution_time := none }],
           memory_tests := none, performance_tests := none,
           test_result := none }]
    ∧ (some "pending" : Option String) ≠ some "failed" :=
  ⟨rfl, by decide⟩

/-- C10 (confirmed): the `run_tests` handler attaches results to tests
purely by list position — the i-th test receives exactly the i-th
result's fields, with no `test_id` check — and a test at an index beyond
the result list is passed through unchanged (so its execution fields
stay unset when they started unset). -/
theorem C10_positional_attachment (tests : List Test)
    (results : List TestResult) (i : Nat) :
    (∀ (t : Test) (r : TestResult), tests[i]? = some t → results[i]? = some r →
      (attachResults tests results)[i]?
        = some { t with
                  execution_success := some r.success
                  execution_output := some r.output
                  execution_error := r.error
                  execution_time := r.execution_time })
    ∧ (results.length ≤ i → (attachResults tests results)[i]? = tests[i]?) := by
  induction tests generalizing results i with
  | nil =>
    refine ⟨?_, ?_⟩
    · intro t r ht _
      simp at ht
    · intro _
      cases results <;> simp [attachResults]
  | cons t0 ts ih =>
    refine ⟨?_, ?_⟩
    · intro t r ht hr
      cases results with
      | nil => simp at hr
      | cons r0 rs =>
        cases i with
        | zero =>
          simp only [List.getElem?_cons_zero, Option.some.injEq] at ht hr
          subst ht
          subst hr
          simp [attachResults]
        | succ n =>
          simp only [List.getElem?_cons_succ] at ht hr
          simp only [attachResults, List.getElem?_cons_succ]
          exact (ih rs n).1 t r ht hr
    · intro hle
      cases results with
      | nil => simp [attachResults]
      | cons r0 rs =>
        cases i with
        | zero => simp at hle
        | succ n =>
          simp only [attachResults, List.getElem?_cons_succ]
          exact (ih rs n).2 (by simpa using hle)

/-- Witness for C10: the single result is attached to the single test by
position even though its `test_id` does not match the test's id. -/
theorem C10_positional_attachment_witness :
    (attachResults
        [{ id := "t1", type := "unit", name := "n", title := "ti", code := "c" }]
        [{ test_id := "ANOTHER-ID", success := false, output := "boom",
           error := some "e" }])[0]?
      = some { id := "t1", type := "unit", name := "n", title := "ti",
               code := "c", status := some "pending",
               execution_success := some false, execution_output := some "boom",
               execution_error := some "e", execution_time := none } :=
  (C10_positional_attachment
    [{ id := "t1", type := "unit", name := "n", title := "ti", code := "c" }]
    [{ test_id := "ANOTHER-ID", success := false, output := "boom",
       error := some "e" }] 0).1
    { id := "t1", type := "unit", name := "n", title := "ti", code := "c" }
    { test_id := "ANOTHER-ID", success := false, output := "boom",
      error := some "e" }
    rfl rfl

/-- C4 (amended): in the Kubernetes backend, `_execute_single_test`
invokes `_cleanup_resources` before returning on every exit path that
returns — normal completion (including wall-timeout and API-error
results, which `_wait_for_job_completion` returns as values) and every
raised `Exception` — and a failure inside cleanup never changes the
returned `TestResult` (the delete calls swallow their own errors).  A
cancellation, however, unwinds through `except Exception` without
running cleanup (see the counterexample). -/
theorem C4_cleanup_on_return (test : TestRequest) (env : ExecEnv)
    (h1 : env.createConfigmap ≠ .cancelled)
    (h2 : env.createJob ≠ .cancelled)
    (h3 : env.waitResult ≠ .cancelled) :
    (execute_single_test test env).cleanupRan = true
    ∧ (∃ r, (execute_single_test test env).result = .ok r)
    ∧ ∀ b b' : Bool,
        (execute_single_test test
          { env with deleteJobFails := b, deleteConfigmapFails := b' }).result
        = (execute_single_test test env).result := by
  obtain ⟨cm, job, wait, dj, dc⟩ := env
  refine ⟨?_, ?_, ?_⟩
  · cases cm with
    | cancelled => exact absurd rfl h1
    | exc m => simp [execute_single_test, cleanup_resources_ok]
    | ok u =>
      cases job with
      | cancelled => exact absurd rfl h2
      | exc m => simp [execute_single_test, cleanup_resources_ok]
      | ok u2 =>
        cases wait with
        | cancelled => exact absurd rfl h3
        | exc m => simp [execute_single_test, cleanup_resources_ok]
        | ok r => simp [execute_single_test, cleanup_resources_ok]
  · cases cm with
    | cancelled => exact absurd rfl h1
    | exc m => simp [execute_single_test, cleanup_resources_ok]
    | ok u =>
      cases job with
      | cancelled => exact absurd rfl h2
      | exc m => simp [execute_single_test, cleanup_resources_ok]
      | ok u2 =>
        cases wait with
        | cancelled => exact absurd rfl h3
        | exc m => simp [execute_single_test, cleanup_resources_ok]
        | ok r => simp [execute_single_test, cleanup_resources_ok]
  · intro b b'
    cases cm with
    | cancelled => exact absurd rfl h1
    | exc m => simp [execute_single_test, cleanup_resources_ok]
    | ok u =>
      cases job with
      | cancelled => exact absurd rfl h2
      | exc m => simp [execute_single_test, cleanup_resources_ok]
      | ok u2 =>
        cases wait with
        | cancelled => exact absurd rfl h3
        | exc m => simp [execute_single_test, cleanup_resources_ok]
        | ok r => simp [execute_single_test, cleanup_resources_ok]

/-- Witness for C4: a run whose cleanup delete calls both fail still
reports cleanup as performed and returns the wait result. -/
theorem C4_cleanup_on_return_witness :
    (execute_single_test
        { id := "t1", type := "unit", name := "n", title := "ti", code := "c" }
        { createConfigmap := .ok (), createJob := .ok (),
          waitResult := .ok { test_id := "t1", success := true, output := "ok" },
          deleteJobFails := true, deleteConfigmapFails := true }).cleanupRan
      = true :=
  (C4_cleanup_on_return
    { id := "t1", type := "unit", name := "n", title := "ti", code := "c" }
    { createConfigmap := .ok (), createJob := .ok (),
      waitResult := .ok { test_id := "t1", success := true, output := "ok" },
      deleteJobFails := true, deleteConfigmapFails := true }
    (by decide) (by decide) (by decide)).1

/-- Counterexample to C4 as stated: a cancellation while awaiting job
completion unwinds `_execute_single_test` without invoking
`_cleanup_resources` — `asyncio.CancelledError` is a `BaseException`,
the function's only handler is `except Exception`, and there is no
`finally` block. -/
theorem C4_counterexample :
    execute_single_test
        { id := "t1", type := "unit", name := "n", title := "ti", code := "c" }
        { createConfigmap := .ok (), createJob := .ok (),
          waitResult := .cancelled,
          deleteJobFails := false, deleteConfigmapFails := false }
      = { result := .cancelled, cleanupRan := false } := rfl

/-- C5 (amended): exit code 0 yields `{success: true, output: logs,
error: none}` in both backends.  For a non-zero exit code N, the Docker
backend's error string states N (`"Test execution failed (exit code: N)"`),
but the Kubernetes backend — whose Job status exposes only
success/failure, never the container exit code — reports the fixed
string `"Test execution failed"` for every non-zero N. -/
theorem C5_exit_code_mapping (test_id logs : String) (elapsed n : Nat)
    (hn : n ≠ 0) :
    docker_result_of_exit test_id 0 logs elapsed
      = { test_id := test_id, success := true, output := logs, error := none,
          execution_time := some elapsed }
    ∧ k8s_result_of_exit test_id 0 logs elapsed
      = { test_id := test_id, success := true, output := logs, error := none,
          execution_time := some elapsed }
    ∧ docker_result_of_exit test_id n logs elapsed
      = { test_id := test_id, success := false, output := logs,
          error := some ("Test execution failed (exit code: "
            ++ toString n ++ ")"),
          execution_time := some elapsed }
    ∧ MentionsNat ("Test execution failed (exit code: " ++ toString n ++ ")") n
    ∧ k8s_result_of_exit test_id n logs elapsed
      = { test_id := test_id, success := false, output := logs,
          error := some "Test execution failed", execution_time := none } := by
  have h0 : (n == 0) = false := by
    simpa using hn
  refine ⟨rfl, rfl, ?_, ?_, ?_⟩
  · simp [docker_result_of_exit, h0]
  · exact ⟨"Test execution failed (exit code: ", ")", rfl⟩
  · simp [k8s_result_of_exit, jobOutcomeOfExit, hn, wait_for_job_completion]

/-- Witness for C5 at exit code 2: the Docker error names the code, the
Kubernetes error is the fixed string. -/
theorem C5_exit_code_mapping_witness :
    docker_result_of_exit "t1" 2 "captured" 5
      = { test_id := "t1", success := false, output := "captured",
          error := some ("Test execution failed (exit code: "
            ++ toString 2 ++ ")"),
          execution_time := some 5 }
    ∧ k8s_result_of_exit "t1" 2 "captured" 5
      = { test_id := "t1", success := false, output := "captured",
          error := some "Test execution failed", execution_time := none } :=
  ⟨(C5_exit_code_mapping "t1" "captured" 5 2 (by decide)).2.2.1,
   (C5_exit_code_mapping "t1" "captured" 5 2 (by decide)).2.2.2.2⟩

/-- Counterexample to C5 as stated: in the Kubernetes backend a test
exiting with code 2 produces the error string `"Test execution failed"`,
which does not state the exit code anywhere. -/
theorem C5_counterexample :
    (k8s_result_of_exit "t1" 2 "captured" 5).error
      = some "Test execution failed"
    ∧ ¬ MentionsNat "Test execution failed" 2 := by
  refine ⟨rfl, ?_⟩
  rintro ⟨pre, post, h⟩
  have h2 : '2' ∈ "Test execution failed".data := by
    rw [h, String.data_append, String.data_append]
    have hd : '2' ∈ (toString 2).data := by decide
    exact List.mem_append.mpr (Or.inl (List.mem_append.mpr (Or.inr hd)))
  exact absurd h2 (by decide)

end CodeLens
